import Mathlib

/-!
Shallow embedding of the weather-map viewer front end (a React single-page
application gluing a Leaflet map and the Windy weather engine) and proofs of
the specification claims about it.

Conventions of the embedding:
  - JavaScript numbers are modelled as exact rationals; the only numeric
    operations the claims touch are comparisons against thresholds and a
    parse-or-fallback step, which are rounding-free.
  - Browser and engine state that the code reads (window._env_, process.env,
    presence of window.L and windyInit, the windy DOM element, the engine
    store and overlay table) is passed explicitly as values.
  - Side-effecting handlers become pure functions from the read state to the
    written state; effectful sequences (script loading, data fetching) become
    lists of emitted actions in program order.
-/

namespace FrontendUndp

/-! ### Environment configuration (src/config/env.ts) -/

/-- The external environment the configuration module reads: the optional
runtime-injected map `window._env_` and the build-time map `process.env`,
each a partial map from full variable names to strings. -/
structure EnvWorld where
  runtimeEnv : Option (String → Option String)
  buildEnv : String → Option String

/-- Lookup in `process.env` with the hardcoded fallback: the second and third
steps of getEnvVar (a build-time value is returned whenever it is defined,
even when empty). -/
def getEnvVarBuild (w : EnvWorld) (fullKey fallback : String) : String :=
  match w.buildEnv fullKey with
  | some v => v
  | none => fallback

/-- Embeds getEnvVar: the runtime value is returned only when `window._env_`
exists and the entry is truthy (a present empty string is falsy in
JavaScript and falls through); otherwise the build-time value when defined;
otherwise the fallback. -/
def getEnvVar (w : EnvWorld) (key fallback : String) : String :=
  let fullKey := "REACT_APP_" ++ key
  match w.runtimeEnv with
  | some m =>
    match m fullKey with
    | some v => if v = "" then getEnvVarBuild w fullKey fallback else v
    | none => getEnvVarBuild w fullKey fallback
  | none => getEnvVarBuild w fullKey fallback

/-- Model of the JavaScript builtin parseFloat (external to the repository):
skips leading spaces, reads an optional sign and a decimal literal, and is
NaN (here: none) when no digit is read. Exponent suffixes are omitted; no
claim depends on them. Digits are read exactly into a rational. -/
def jsParseFloat (s : String) : Option ℚ :=
  let l := s.data.dropWhile (fun c => c = ' ')
  let signAndRest : ℚ × List Char :=
    match l with
    | '-' :: rest => (-1, rest)
    | '+' :: rest => (1, rest)
    | _ => (1, l)
  let sign := signAndRest.1
  let l1 := signAndRest.2
  let intPart := l1.takeWhile Char.isDigit
  let rest1 := l1.dropWhile Char.isDigit
  let digitsToNat (ds : List Char) : ℕ :=
    ds.foldl (fun acc c => 10 * acc + (c.toNat - 48)) 0
  match rest1 with
  | '.' :: rest2 =>
    let fracPart := rest2.takeWhile Char.isDigit
    if intPart = [] ∧ fracPart = [] then none
    else some (sign * ((digitsToNat intPart : ℚ) +
      (digitsToNat fracPart : ℚ) / (10 ^ fracPart.length)))
  | _ => if intPart = [] then none else some (sign * (digitsToNat intPart : ℚ))

/-- Embeds parseNumber: parseFloat with a numeric fallback on NaN. -/
def parseNumber (value : String) (fallback : ℚ) : ℚ :=
  match jsParseFloat value with
  | some parsed => parsed
  | none => fallback

/-- The resolved configuration record (interface AppEnv). -/
structure AppEnv where
  API_URL : String
  WINDY_API_KEY : String
  MAP_CENTER_LAT : ℚ
  MAP_CENTER_LNG : ℚ
  MAP_DEFAULT_ZOOM : ℚ
  DETAILED_TILES_URL : String

/-- Embeds the exported `env` object with its hardcoded fallbacks. -/
def envConfig (w : EnvWorld) : AppEnv :=
  { API_URL := getEnvVar w "API_URL" "http://localhost:3001/api"
    WINDY_API_KEY := getEnvVar w "WINDY_API_KEY" ""
    MAP_CENTER_LAT := parseNumber (getEnvVar w "MAP_CENTER_LAT" "10.835") 10.835
    MAP_CENTER_LNG := parseNumber (getEnvVar w "MAP_CENTER_LNG" "106.769") 106.769
    MAP_DEFAULT_ZOOM := parseNumber (getEnvVar w "MAP_DEFAULT_ZOOM" "9") 9
    DETAILED_TILES_URL := getEnvVar w "DETAILED_TILES_URL"
      "https://server.arcgisonline.com/ArcGIS/rest/services/World_Imagery/MapServer/tile/{z}/{y}/{x}" }

/-- The amended precedence rule written from the spec claim's words, with
the one forced change: a runtime-injected value is returned when it is
present AND non-empty (truthy), not merely present. Compared against
getEnvVar, which is translated from the source. -/
def envSpecResolve (w : EnvWorld) (key fallback : String) : String :=
  let fullKey := "REACT_APP_" ++ key
  let runtimeVal : Option String :=
    match w.runtimeEnv with
    | some m => m fullKey
    | none => none
  match runtimeVal with
  | some v =>
    if v ≠ "" then v
    else match w.buildEnv fullKey with
      | some b => b
      | none => fallback
  | none =>
    match w.buildEnv fullKey with
    | some b => b
    | none => fallback

/-! ### Zoom-threshold layer swap (src/components/Map/MapContainer.tsx) -/

/-- The state a zoom handler writes: the context zoom, the backup
(detailed satellite) view flag, and whether the element with id windy
carries the class windy-hidden. -/
structure ZoomHandlerResult where
  currentZoom : ℚ
  showBackupLayer : Bool
  windyHidden : Bool
deriving DecidableEq

/-- Embeds handleZoomEnd (the zoomend listener): one comparison newZoom > 10
drives both the backup-layer flag and the windy-hidden class; the classList
update happens only when the windy element exists (optional chaining). -/
def handleZoomEnd (newZoom : ℚ) (elemPresent prevHidden : Bool) : ZoomHandlerResult :=
  let shouldShowDetailedView := decide (newZoom > 10)
  { currentZoom := newZoom
    showBackupLayer := shouldShowDetailedView
    windyHidden :=
      if shouldShowDetailedView then
        if elemPresent then true else prevHidden
      else
        if elemPresent then false else prevHidden }

/-- Embeds the redrawFinished broadcast handler: same comparison zoom > 10,
but the class is added only under the guard `windyAPI.map && shouldShow`;
the else branch removes it. -/
def redrawFinishedHandler (zoom : ℚ) (hasMap elemPresent prevHidden : Bool) :
    ZoomHandlerResult :=
  let shouldShowDetailedView := decide (zoom > 10)
  { currentZoom := zoom
    showBackupLayer := shouldShowDetailedView
    windyHidden :=
      if hasMap && shouldShowDetailedView then
        if elemPresent then true else prevHidden
      else
        if elemPresent then false else prevHidden }

/-! ### Mock data (src/services/mockDataService.ts) and the data-fetching
hook (src/hooks/useDataFetching.ts) -/

/-- A generic data point record (interface DataPoint). -/
structure DataPoint where
  id : String
  lat : ℚ
  lng : ℚ
  value : ℚ
  name : String
  description : String
deriving DecidableEq

/-- Embeds MockDataService.getDataPoints: a switch on the dataset name with
two named datasets and a default branch of sample points. -/
def getDataPoints (dataset : String) : List DataPoint :=
  if dataset = "weather-stations" then
    [⟨"station1", 10.835, 106.769, 75, "Station Alpha",
      "Weather monitoring station in central location"⟩,
     ⟨"station2", 10.855, 106.789, 42, "Station Beta",
      "Urban environment station"⟩,
     ⟨"station3", 10.815, 106.749, 88, "Station Gamma",
      "High precision weather station"⟩]
  else if dataset = "pollution-data" then
    [⟨"pollution1", 10.835, 106.769, 65, "Air Quality Station 1",
      "PM2.5 concentration"⟩,
     ⟨"pollution2", 10.855, 106.789, 35, "Air Quality Station 2",
      "PM2.5 concentration"⟩,
     ⟨"pollution3", 10.815, 106.749, 82, "Air Quality Station 3",
      "PM2.5 concentration"⟩]
  else
    [⟨"point1", 10.835, 106.769, 50, "Sample Point 1", "Generic data point"⟩,
     ⟨"point2", 10.855, 106.789, 50, "Sample Point 2", "Generic data point"⟩]

/-- Splitting a character list at every slash, matching the JavaScript
String.split with a one-character separator: the empty input gives one empty
segment, and a trailing slash gives a trailing empty segment. -/
def splitOnSlash : List Char → List (List Char)
  | [] => [[]]
  | c :: rest =>
    let r := splitOnSlash rest
    if c = '/' then [] :: r
    else
      match r with
      | [] => [[c]]
      | seg :: segs => (c :: seg) :: segs

/-- The last slash-separated segment of a string: endpoint.split(slash).pop()
of the hook (split never yields an empty array, so pop always finds a last
element). -/
def lastSegment (s : String) : String :=
  match (splitOnSlash s.data).getLast? with
  | some seg => String.mk seg
  | none => s

/-- Embeds the dataset-name extraction of getMockData, including the
`|| endpoint` fallback taken when the popped last segment is the empty
string (falsy). -/
def datasetName (endpoint : String) : String :=
  let popped := lastSegment endpoint
  if popped = "" then endpoint else popped

/-- Embeds getMockData of useDataFetching. -/
def getMockData (endpoint : String) : List DataPoint :=
  getDataPoints (datasetName endpoint)

/-- The module-level constant of useDataFetching.ts that short-circuits the
hook to mock data. -/
def USE_MOCK_DATA : Bool := true

/-- The FetchState record the hook stores (timestamp reduced to whether
Date.now was written). -/
structure FetchState where
  data : Option (List DataPoint)
  loading : Bool
  error : Option String
  timestampSet : Bool
deriving DecidableEq

/-- What one fetchData call does: whether fetch (the network) was invoked,
the value returned, and the state left behind. -/
structure FetchOutcome where
  networkCalled : Bool
  result : Option (List DataPoint)
  finalState : FetchState

/-- Embeds fetchData of useDataFetching. `net` is the external network: the
parsed response body for a URL, or none for a failed request; it is consulted
only on the non-mock path. The mock branch produces getMockData and a success
state; the network branch marks the network as called. -/
def fetchData (net : String → Option (List DataPoint)) (endpoint : String) :
    FetchOutcome :=
  if USE_MOCK_DATA then
    let mockData := getMockData endpoint
    { networkCalled := false
      result := some mockData
      finalState :=
        { data := some mockData, loading := false, error := none, timestampSet := true } }
  else
    match net endpoint with
    | some responseData =>
      { networkCalled := true
        result := some responseData
        finalState :=
          { data := some responseData, loading := false, error := none, timestampSet := true } }
    | none =>
      { networkCalled := true
        result := none
        finalState :=
          { data := none, loading := false, error := some "API error", timestampSet := true } }

/-- The observable steps of one fetchData call, in program order. -/
inductive FetchEvent
  | setLoadingTrue
  | delayMs (ms : ℕ)
  | mockSuccess (data : List DataPoint)
  | networkRequest
deriving DecidableEq

/-- Embeds the event order of fetchData: the loading state is set, then on
the mock path the fixed 500 ms timeout is awaited, then the mock data is
produced and stored. -/
def fetchDataEvents (endpoint : String) : List FetchEvent :=
  if USE_MOCK_DATA then
    [.setLoadingTrue, .delayMs 500, .mockSuccess (getMockData endpoint)]
  else
    [.setLoadingTrue, .networkRequest]

/-! ### Script loading, initialization and rendering
(src/components/Map/MapContainer.tsx, src/context/MapContext.tsx) -/

/-- The browser world the loadScripts effect reads: whether window.L and
windyInit already exist, and how the two injected script tags resolve
(onload versus onerror, and whether windyInit exists after the Windy script
has loaded). -/
structure ScriptWorld where
  leafletPresent : Bool
  leafletLoadOk : Bool
  windyInitPresent : Bool
  windyLoadOk : Bool
  windyInitAfterLoad : Bool
deriving DecidableEq

/-- The actions the loadScripts effect emits, in program order. -/
inductive ScriptAction
  | injectLeaflet
  | injectWindy
  | setScriptsLoaded
  | setMapError (msg : String)
deriving DecidableEq

/-- The Windy phase of loadScripts: inject the Windy script tag only when
windyInit is not yet a function; its load promise resolves only when onload
fires and windyInit exists afterwards, and rejects otherwise. Success of
both phases ends with setScriptsLoaded; a rejection is caught and ends with
setMapError. -/
def loadWindyPhase (w : ScriptWorld) (acc : List ScriptAction) : List ScriptAction :=
  if w.windyInitPresent then acc ++ [.setScriptsLoaded]
  else if !w.windyLoadOk then acc ++ [.injectWindy, .setMapError "Failed to load Windy API"]
  else if w.windyInitAfterLoad then acc ++ [.injectWindy, .setScriptsLoaded]
  else acc ++ [.injectWindy,
    .setMapError "Windy API loaded but windyInit function not found"]

/-- Embeds loadScripts: the Leaflet script tag is injected only when
window.L is absent; a Leaflet load failure rejects and is caught as
setMapError, skipping the Windy phase. -/
def loadScripts (w : ScriptWorld) : List ScriptAction :=
  if w.leafletPresent then loadWindyPhase w []
  else if w.leafletLoadOk then loadWindyPhase w [.injectLeaflet]
  else [.injectLeaflet, .setMapError "Failed to load Leaflet"]

/-- The component state the claims read: the provider's loading flag and
error slot, plus the container's scriptsLoaded flag and status line. -/
structure MapState where
  isMapLoading : Bool
  mapError : Option String
  scriptsLoaded : Bool
  status : String
deriving DecidableEq

/-- Applying one emitted action to the component state: setScriptsLoaded and
setMapError update the corresponding slots with the status lines the code
writes; script injections change no component state. -/
def applyScriptAction (st : MapState) : ScriptAction → MapState
  | .injectLeaflet => st
  | .injectWindy => st
  | .setScriptsLoaded =>
    { st with scriptsLoaded := true, status := "Scripts loaded successfully" }
  | .setMapError m =>
    { st with mapError := some m, status := "Failed to load scripts" }

/-- The state after the loadScripts effect has run from a given state. -/
def runLoadScripts (w : ScriptWorld) (st : MapState) : MapState :=
  (loadScripts w).foldl applyScriptAction st

/-- The state MapProvider and MapContainer start from: loading true, no
error, scripts not loaded. -/
def initialMapState : MapState :=
  { isMapLoading := true, mapError := none, scriptsLoaded := false,
    status := "Initializing..." }

/-- What the component returns from render. -/
inductive RenderedView
  | loadingOverlay (statusShown : String)
  | errorOverlay (message : String)
  | mapView
deriving DecidableEq

/-- Embeds the render order of MapContainer: the loading overlay whenever
isMapLoading is true, else the error overlay whenever mapError is set, else
the map. -/
def renderMapContainer (st : MapState) : RenderedView :=
  if st.isMapLoading then .loadingOverlay st.status
  else
    match st.mapError with
    | some m => .errorOverlay m
    | none => .mapView

/-- The actions of the initialization effect (step 2). -/
inductive InitAction
  | callWindyInit
  | setInitError (msg : String)
deriving DecidableEq

/-- Embeds the initialization effect: a no-op unless the guard passes
(not yet attempted, scriptsLoaded true, container ref set); then windyInit
is called, or its absence is thrown and caught as setMapError. -/
def initEffectActions (scriptsLoaded initAttempted containerPresent
    windyInitAvailable : Bool) : List InitAction :=
  if initAttempted then []
  else if !scriptsLoaded then []
  else if !containerPresent then []
  else if windyInitAvailable then [.callWindyInit]
  else [.setInitError "windyInit function not available"]

/-- Abbreviation: the Leaflet phase of loadScripts succeeded (the script was
already present, or its load promise resolved). -/
def leafletPhaseOk (w : ScriptWorld) : Bool :=
  w.leafletPresent || w.leafletLoadOk

/-! ### WindyService (src/services/windyService.ts) -/

/-- A Windy layer descriptor (interface WindyLayer). -/
structure WindyLayer where
  id : String
  name : String
  overlayFunction : String
deriving DecidableEq

/-- Embeds getAvailableLayers: the five known layers. -/
def getAvailableLayers : List WindyLayer :=
  [⟨"wind", "Wind Layer", "wind"⟩,
   ⟨"temp", "Temperature", "temp"⟩,
   ⟨"clouds", "Clouds", "clouds"⟩,
   ⟨"pressure", "Pressure", "pressure"⟩,
   ⟨"rainClouds", "Rain & Clouds", "rainClouds"⟩]

/-- The ids of the five known layers. -/
def knownLayerIds : List String := getAvailableLayers.map (fun l => l.id)

/-- Writing a key into the engine's key/value store. -/
def storeSet (s : List (String × String)) (k v : String) : List (String × String) :=
  match s with
  | [] => [(k, v)]
  | (k', v') :: rest => if k' = k then (k, v) :: rest else (k', v') :: storeSet rest k v

/-- Reading a key from the engine's key/value store. -/
def storeGet (s : List (String × String)) (k : String) : Option String :=
  match s with
  | [] => none
  | (k', v') :: rest => if k' = k then some v' else storeGet rest k

/-- The WindyService state the claims touch: the engine store and whether it
exists, the overlay functions the engine exposes, the registered change
listeners (callbacks by identity), and traces of the overlay functions
invoked and the notifications issued. -/
structure WindyServiceState where
  hasStore : Bool
  store : List (String × String)
  overlays : List String
  changeListeners : List ℕ
  invokedOverlays : List String
  notifications : List (String × String)
deriving DecidableEq

/-- Embeds notifyListeners: every registered listener is invoked with the
event; the embedding records the notification. -/
def notifyListeners (st : WindyServiceState) (event data : String) : WindyServiceState :=
  { st with notifications := st.notifications ++ [(event, data)] }

/-- The callbacks a notifyListeners call invokes: each entry of the
changeListeners array, via forEach. -/
def notifyInvokes (st : WindyServiceState) : List ℕ :=
  st.changeListeners

/-- Embeds setActiveLayer: inside a try/catch, write layerId to the store
key overlay (a missing store throws and the catch swallows it, changing
nothing), look the layer up among the five known ones, invoke its overlay
function when the engine exposes it, and notify the listeners. -/
def setActiveLayer (st : WindyServiceState) (layerId : String) : WindyServiceState :=
  if st.hasStore = false then st
  else
    let st1 := { st with store := storeSet st.store "overlay" layerId }
    let st2 :=
      match getAvailableLayers.find? (fun l => l.id = layerId) with
      | some layer =>
        if layer.overlayFunction ∈ st1.overlays then
          { st1 with invokedOverlays := st1.invokedOverlays ++ [layer.overlayFunction] }
        else st1
      | none => st1
    notifyListeners st2 "layerChange" layerId

/-- Embeds setAltitudeLevel: return early when the store is missing, else
write level to the store key level and notify the listeners. -/
def setAltitudeLevel (st : WindyServiceState) (level : String) : WindyServiceState :=
  if st.hasStore = false then st
  else
    notifyListeners { st with store := storeSet st.store "level" level }
      "levelChange" level

/-- Embeds addChangeListener: push onto the listener array. -/
def addChangeListener (st : WindyServiceState) (cb : ℕ) : WindyServiceState :=
  { st with changeListeners := st.changeListeners ++ [cb] }

/-- Embeds removeChangeListener: keep every entry that is not the callback
(filter with strict inequality), dropping all its occurrences. -/
def removeChangeListener (st : WindyServiceState) (cb : ℕ) : WindyServiceState :=
  { st with changeListeners := st.changeListeners.filter (fun c => c ≠ cb) }

/-! ### MapContext provider (src/context/MapContext.tsx) -/

/-- Embeds toggleLayerVisibility: remove every occurrence of the id when
present, append it when absent. -/
def toggleLayerVisibility (visibleLayers : List String) (layerId : String) :
    List String :=
  if layerId ∈ visibleLayers then visibleLayers.filter (fun i => i ≠ layerId)
  else visibleLayers ++ [layerId]

/-- A geographic point (interface GeoPoint). -/
structure GeoPoint where
  lat : ℚ
  lng : ℚ
deriving DecidableEq

/-- Embeds the provider's calculateDistance: a placeholder that returns 0
for every pair of points (the real computation lives in useTurfAnalysis). -/
def calculateDistance (point1 point2 : GeoPoint) : ℚ := 0

end FrontendUndp

/-! ## Theorems -/

namespace FrontendUndp

/-- C1: for every zoom level reported via zoomend or redrawFinished (with the
map present and the windy container in the DOM), the detailed backup view is
shown if and only if the zoom exceeds 10, and the windy container carries the
windy-hidden class exactly when the detailed view is shown. -/
theorem zoom_threshold_swap (z : ℚ) (prevHidden : Bool) :
    ((handleZoomEnd z true prevHidden).showBackupLayer = true ↔ z > 10) ∧
    (handleZoomEnd z true prevHidden).windyHidden =
      (handleZoomEnd z true prevHidden).showBackupLayer ∧
    ((redrawFinishedHandler z true true prevHidden).showBackupLayer = true ↔ z > 10) ∧
    (redrawFinishedHandler z true true prevHidden).windyHidden =
      (redrawFinishedHandler z true true prevHidden).showBackupLayer := by
  refine ⟨by simp [handleZoomEnd], ?_, by simp [redrawFinishedHandler], ?_⟩
  · by_cases h : z > 10 <;> simp [handleZoomEnd, h]
  · by_cases h : z > 10 <;> simp [redrawFinishedHandler, h]

/-- Helper: the dataset name the code computes (last segment, with fallback
to the whole endpoint when that segment is empty) selects the same mock
records as the last segment itself, because a string with an empty last
segment is empty or ends in a slash and so matches neither named dataset. -/
theorem getDataPoints_datasetName (endpoint : String) :
    getDataPoints (datasetName endpoint) = getDataPoints (lastSegment endpoint) := by
  by_cases h : lastSegment endpoint = ""
  · rw [datasetName, if_pos h, h]
    have h1 : endpoint ≠ "weather-stations" := by
      rintro rfl; exact absurd h (by decide)
    have h2 : endpoint ≠ "pollution-data" := by
      rintro rfl; exact absurd h (by decide)
    rw [getDataPoints, if_neg h1, if_neg h2]
    rfl
  · rw [datasetName, if_neg h]

/-- C2: with USE_MOCK_DATA true, fetchData never touches the network and
returns the mock records of getDataPoints applied to the last
slash-separated segment of the endpoint; the final state holds that data
with loading false and error none. -/
theorem fetchData_mock_shortcircuit (net : String → Option (List DataPoint))
    (endpoint : String) :
    (fetchData net endpoint).networkCalled = false ∧
    (fetchData net endpoint).result = some (getDataPoints (lastSegment endpoint)) ∧
    (fetchData net endpoint).finalState.data =
      some (getDataPoints (lastSegment endpoint)) ∧
    (fetchData net endpoint).finalState.loading = false ∧
    (fetchData net endpoint).finalState.error = none := by
  refine ⟨rfl, ?_, ?_, rfl, rfl⟩ <;>
    simp [fetchData, USE_MOCK_DATA, getMockData, getDataPoints_datasetName]

/-- C6: on the mock path, the fixed 500 ms delay is awaited before the mock
records are produced: the event trace puts delayMs 500 at position 1, the
success at position 2, and every mock-success event is preceded by the
delay. -/
theorem fetchData_delay_before_mock (endpoint : String) :
    (fetchDataEvents endpoint).get? 1 = some (.delayMs 500) ∧
    (fetchDataEvents endpoint).get? 2 = some (.mockSuccess (getMockData endpoint)) ∧
    ∀ j d, (fetchDataEvents endpoint).get? j = some (.mockSuccess d) →
      ∃ i, i < j ∧ (fetchDataEvents endpoint).get? i = some (.delayMs 500) := by
  refine ⟨rfl, rfl, ?_⟩
  intro j d hj
  match j with
  | 0 => simp [fetchDataEvents, USE_MOCK_DATA] at hj
  | 1 => simp [fetchDataEvents, USE_MOCK_DATA] at hj
  | 2 => exact ⟨1, by omega, rfl⟩
  | n + 3 => simp [fetchDataEvents, USE_MOCK_DATA] at hj

/-- C5: the Leaflet script is injected exactly when window.L is absent, the
Windy script only when windyInit is not yet a function, scriptsLoaded is set
only when both phases resolved, the initialization effect is a no-op while
scriptsLoaded is false, and it calls windyInit only once scriptsLoaded is
true. -/
theorem scripts_load_before_windyInit (w : ScriptWorld) :
    (ScriptAction.injectLeaflet ∈ loadScripts w ↔ w.leafletPresent = false) ∧
    (ScriptAction.injectWindy ∈ loadScripts w → w.windyInitPresent = false) ∧
    (ScriptAction.setScriptsLoaded ∈ loadScripts w →
      leafletPhaseOk w = true ∧
      (w.windyInitPresent = true ∨
        (w.windyLoadOk = true ∧ w.windyInitAfterLoad = true))) ∧
    (∀ ia cp wa, initEffectActions false ia cp wa = []) ∧
    (∀ sl ia cp wa, InitAction.callWindyInit ∈ initEffectActions sl ia cp wa →
      sl = true) := by
  obtain ⟨lp, lo, wp, wo, wa⟩ := w
  cases lp <;> cases lo <;> cases wp <;> cases wo <;> cases wa <;> decide

/-- C3 counterexample: when the Leaflet script fails to load, the error is
stored in the map state, but the component renders the loading overlay (with
status text), not the error banner, because isMapLoading is still true. -/
theorem script_failure_renders_loading_overlay :
    (runLoadScripts ⟨false, false, false, false, false⟩ initialMapState).mapError =
      some "Failed to load Leaflet" ∧
    renderMapContainer
        (runLoadScripts ⟨false, false, false, false, false⟩ initialMapState) =
      .loadingOverlay "Failed to load scripts" ∧
    renderMapContainer
        (runLoadScripts ⟨false, false, false, false, false⟩ initialMapState) ≠
      .errorOverlay "Failed to load Leaflet" := by
  refine ⟨rfl, rfl, ?_⟩
  decide

/-- C3 amended: every script-load failure is caught and its message stored
in the map state (a missing DOM container instead makes the initialization
effect a no-op with no error stored), but because isMapLoading stays true
during initialization the UI shows the loading overlay, not the error
banner; the error banner renders only in a state where loading has finished
and an error is stored. -/
theorem script_failure_stores_error_loading_persists (w : ScriptWorld) (st : MapState) :
    (((w.leafletPresent = false ∧ w.leafletLoadOk = false) →
        (runLoadScripts w initialMapState).mapError = some "Failed to load Leaflet") ∧
      ((leafletPhaseOk w = true ∧ w.windyInitPresent = false ∧ w.windyLoadOk = false) →
        (runLoadScripts w initialMapState).mapError = some "Failed to load Windy API") ∧
      ((leafletPhaseOk w = true ∧ w.windyInitPresent = false ∧ w.windyLoadOk = true ∧
          w.windyInitAfterLoad = false) →
        (runLoadScripts w initialMapState).mapError =
          some "Windy API loaded but windyInit function not found") ∧
      ((runLoadScripts w initialMapState).mapError ≠ none →
        renderMapContainer (runLoadScripts w initialMapState) =
          .loadingOverlay "Failed to load scripts") ∧
      (∀ sl ia wa, initEffectActions sl ia false wa = [])) ∧
    ((st.isMapLoading = true → ∀ m, renderMapContainer st ≠ .errorOverlay m) ∧
      (st.isMapLoading = false → ∀ m, st.mapError = some m →
        renderMapContainer st = .errorOverlay m)) := by
  constructor
  · obtain ⟨lp, lo, wp, wo, wa⟩ := w
    cases lp <;> cases lo <;> cases wp <;> cases wo <;> cases wa <;> decide
  · constructor
    · intro h m heq
      simp [renderMapContainer, h] at heq
    · intro h m hm
      simp [renderMapContainer, h, hm]

/-- C4 counterexample: a runtime-injected value that is present but empty is
not returned; the build-time value wins, contradicting the claim that a
present runtime value is always returned. -/
theorem env_runtime_empty_not_returned :
    (getEnvVar
        { runtimeEnv := some fun k => if k = "REACT_APP_API_URL" then some "" else none
          buildEnv := fun k => if k = "REACT_APP_API_URL" then some "https://example.org" else none }
        "API_URL" "http://localhost:3001/api" = "https://example.org") ∧
    ((fun k => if k = "REACT_APP_API_URL" then some "" else none : String → Option String)
        "REACT_APP_API_URL" = some "") := by
  exact ⟨rfl, rfl⟩

/-- C4 amended: the resolution precedence holds with the one correction that
a runtime-injected value is returned only when it is present and non-empty
(truthy); otherwise a defined build-time value is returned, else the
hardcoded fallback; and each numeric key falls back to its numeric default
whenever the resolved string does not parse as a number. -/
theorem env_precedence (w : EnvWorld) :
    (∀ key fallback, getEnvVar w key fallback = envSpecResolve w key fallback) ∧
    ((jsParseFloat (getEnvVar w "MAP_CENTER_LAT" "10.835") = none →
        (envConfig w).MAP_CENTER_LAT = 10.835) ∧
      (jsParseFloat (getEnvVar w "MAP_CENTER_LNG" "106.769") = none →
        (envConfig w).MAP_CENTER_LNG = 106.769) ∧
      (jsParseFloat (getEnvVar w "MAP_DEFAULT_ZOOM" "9") = none →
        (envConfig w).MAP_DEFAULT_ZOOM = 9)) := by
  constructor
  · intro key fallback
    rw [getEnvVar, envSpecResolve]
    obtain ⟨renv, benv⟩ := w
    match renv with
    | none => rfl
    | some m =>
      simp only
      match m ("REACT_APP_" ++ key) with
      | none => rfl
      | some v =>
        by_cases hv : v = "" <;> simp [hv, getEnvVarBuild]
  · refine ⟨?_, ?_, ?_⟩ <;> intro h <;>
      simp [envConfig, parseNumber, h]

/-- C7: with the engine store available, setActiveLayer writes the layer id
to the store key overlay and notifies the listeners (invoking the matching
overlay function when the id is a known layer the engine exposes), and
setAltitudeLevel writes the level to the store key level and notifies the
listeners. -/
theorem windyService_forwards_store_writes (st : WindyServiceState)
    (layerId level : String) (hs : st.hasStore = true) :
    storeGet (setActiveLayer st layerId).store "overlay" = some layerId ∧
    (setActiveLayer st layerId).notifications =
      st.notifications ++ [("layerChange", layerId)] ∧
    (layerId ∈ knownLayerIds → layerId ∈ st.overlays →
      layerId ∈ (setActiveLayer st layerId).invokedOverlays) ∧
    storeGet (setAltitudeLevel st level).store "level" = some level ∧
    (setAltitudeLevel st level).notifications =
      st.notifications ++ [("levelChange", level)] := by
  have hsg : ∀ s k v, storeGet (storeSet s k v) k = some v := by
    intro s k v
    induction s with
    | nil => simp [storeSet, storeGet]
    | cons head tail ih =>
      obtain ⟨k', v'⟩ := head
      by_cases hk : k' = k <;> simp [storeSet, storeGet, hk, ih]
  refine ⟨?_, ?_, ?_, ?_, ?_⟩
  · rw [setActiveLayer, if_neg (by simp [hs])]
    simp only [notifyListeners]
    split <;> [skip; exact hsg _ _ _] <;> split <;> exact hsg _ _ _
  · rw [setActiveLayer, if_neg (by simp [hs])]
    simp only [notifyListeners]
    split <;> [skip; rfl] <;> split <;> rfl
  · intro hknown hexp
    rw [setActiveLayer, if_neg (by simp [hs])]
    simp only [knownLayerIds, getAvailableLayers, List.map, List.mem_cons,
      List.not_mem_nil, or_false] at hknown
    rcases hknown with rfl | rfl | rfl | rfl | rfl <;>
      simp [getAvailableLayers, List.find?, notifyListeners, hexp]
  · rw [setAltitudeLevel, if_neg (by simp [hs])]
    simp only [notifyListeners]
    exact hsg _ _ _
  · rw [setAltitudeLevel, if_neg (by simp [hs])]
    rfl

/-- C7 witness: a concrete service state with the store present and the five
overlay functions exposed. -/
theorem windyService_forwards_store_writes_witness :
    storeGet (setActiveLayer ⟨true, [], ["wind", "temp", "clouds", "pressure",
        "rainClouds"], [], [], []⟩ "wind").store "overlay" = some "wind" ∧
    (setActiveLayer ⟨true, [], ["wind", "temp", "clouds", "pressure",
        "rainClouds"], [], [], []⟩ "wind").notifications = [("layerChange", "wind")] ∧
    ("wind" ∈ knownLayerIds → "wind" ∈ ["wind", "temp", "clouds", "pressure",
        "rainClouds"] →
      "wind" ∈ (setActiveLayer ⟨true, [], ["wind", "temp", "clouds", "pressure",
        "rainClouds"], [], [], []⟩ "wind").invokedOverlays) ∧
    storeGet (setAltitudeLevel ⟨true, [], ["wind", "temp", "clouds", "pressure",
        "rainClouds"], [], [], []⟩ "surface").store "level" = some "surface" ∧
    (setAltitudeLevel ⟨true, [], ["wind", "temp", "clouds", "pressure",
        "rainClouds"], [], [], []⟩ "surface").notifications =
      [("levelChange", "surface")] :=
  windyService_forwards_store_writes
    ⟨true, [], ["wind", "temp", "clouds", "pressure", "rainClouds"], [], [], []⟩
    "wind" "surface" rfl

/-- C9: adding then removing a listener that was not registered restores the
listener array; after a removal the callback is not among those a
notifyListeners call invokes; and when the callback was already registered,
removal deletes every occurrence, so the add/remove round trip does not
restore the prior array. -/
theorem changeListener_roundtrip (st : WindyServiceState) (cb : ℕ) :
    (cb ∉ st.changeListeners →
      (removeChangeListener (addChangeListener st cb) cb).changeListeners =
        st.changeListeners) ∧
    cb ∉ notifyInvokes (removeChangeListener st cb) ∧
    (cb ∈ st.changeListeners →
      (removeChangeListener (addChangeListener st cb) cb).changeListeners ≠
        st.changeListeners) ∧
    (cb ∈ st.changeListeners →
      cb ∉ (removeChangeListener (addChangeListener st cb) cb).changeListeners) := by
  have hfilter : ∀ l : List ℕ, cb ∉ l.filter (fun c => decide (c ≠ cb)) := by
    intro l hmem
    have := List.of_mem_filter hmem
    simp at this
  refine ⟨?_, ?_, ?_, ?_⟩
  · intro hout
    simp only [removeChangeListener, addChangeListener, List.filter_append]
    rw [List.filter_eq_self.mpr, List.filter_cons, List.filter_nil]
    · simp
    · intro a ha
      simp only [decide_eq_true_eq]
      exact fun hcontra => hout (hcontra ▸ ha)
  · exact hfilter st.changeListeners
  · intro hin heq
    exact hfilter _ (heq ▸ hin)
  · intro _
    exact hfilter _

/-- Helper: an element never survives the filter that keeps the elements
different from it. -/
theorem filter_ne_not_mem {α : Type} [DecidableEq α] (x : α) (m : List α) :
    x ∉ m.filter (fun i => decide (i ≠ x)) := by
  intro hmem
  have := List.of_mem_filter hmem
  simp at this

/-- Helper: filtering out an element that is not in the list keeps the list. -/
theorem filter_ne_of_not_mem {α : Type} [DecidableEq α] (x : α) (m : List α)
    (h : x ∉ m) : m.filter (fun i => decide (i ≠ x)) = m := by
  apply List.filter_eq_self.mpr
  intro a ha
  simp only [decide_eq_true_eq]
  exact fun hcontra => h (hcontra ▸ ha)

/-- Helper: on a duplicate-free list containing an element, filtering it out
and appending it is a permutation of the original list. -/
theorem filter_ne_append_singleton_perm {α : Type} [DecidableEq α] (x : α) :
    ∀ l : List α, l.Nodup → x ∈ l →
      (l.filter (fun i => decide (i ≠ x)) ++ [x]).Perm l := by
  intro l hnd hx
  induction l with
  | nil => cases hx
  | cons a t ih =>
    by_cases hax : a = x
    · subst hax
      have hxt : a ∉ t := (List.nodup_cons.mp hnd).1
      rw [List.filter_cons_of_neg (by simp), filter_ne_of_not_mem a t hxt]
      exact List.perm_append_singleton a t
    · rw [List.filter_cons_of_pos (by simp [hax])]
      have hxt : x ∈ t := by
        rcases List.mem_cons.mp hx with h | h
        · exact absurd h.symm hax
        · exact h
      exact (ih (List.nodup_cons.mp hnd).2 hxt).cons a

/-- C8 counterexample: toggling the first of two visible layers twice does
not restore the original list; the toggled id moves to the end. -/
theorem toggle_twice_reorders :
    List.Nodup ["a", "b"] ∧
    toggleLayerVisibility (toggleLayerVisibility ["a", "b"] "a") "a" = ["b", "a"] ∧
    toggleLayerVisibility (toggleLayerVisibility ["a", "b"] "a") "a" ≠ ["a", "b"] := by
  refine ⟨by decide, rfl, by decide⟩

/-- C8 amended: on a duplicate-free list, toggling negates exactly the
toggled id's membership and leaves every other id's membership unchanged;
toggling twice restores the original membership (the result is a
permutation of the original list), and restores the list itself when the id
was absent. -/
theorem toggleLayerVisibility_involutive (l : List String) (x : String)
    (hnd : l.Nodup) :
    (x ∈ toggleLayerVisibility l x ↔ x ∉ l) ∧
    (∀ y, y ≠ x → (y ∈ toggleLayerVisibility l x ↔ y ∈ l)) ∧
    (toggleLayerVisibility (toggleLayerVisibility l x) x).Perm l ∧
    (x ∉ l → toggleLayerVisibility (toggleLayerVisibility l x) x = l) := by
  by_cases hx : x ∈ l
  · refine ⟨?_, ?_, ?_, fun hout => absurd hx hout⟩
    · simp only [toggleLayerVisibility, if_pos hx]
      exact ⟨fun hmem => absurd hmem (filter_ne_not_mem x l),
        fun hout => absurd hx hout⟩
    · intro y hy
      simp only [toggleLayerVisibility, if_pos hx, List.mem_filter,
        decide_eq_true_eq]
      exact ⟨fun h => h.1, fun hm => ⟨hm, hy⟩⟩
    · simp only [toggleLayerVisibility, if_pos hx]
      rw [if_neg (filter_ne_not_mem x l)]
      exact filter_ne_append_singleton_perm x l hnd hx
  · have htwice : toggleLayerVisibility (toggleLayerVisibility l x) x = l := by
      simp only [toggleLayerVisibility, if_neg hx]
      rw [if_pos (by simp), List.filter_append, filter_ne_of_not_mem x l hx,
        List.filter_cons, List.filter_nil]
      simp
    refine ⟨?_, ?_, ?_, fun _ => htwice⟩
    · simp [toggleLayerVisibility, hx]
    · intro y hy
      simp [toggleLayerVisibility, hx, hy]
    · rw [htwice]

/-- C8 witness: the amended statement at the concrete duplicate-free list
with the toggled id present. -/
theorem toggleLayerVisibility_involutive_witness :
    ("a" ∈ toggleLayerVisibility ["a", "b"] "a" ↔ "a" ∉ ["a", "b"]) ∧
    (∀ y, y ≠ "a" → (y ∈ toggleLayerVisibility ["a", "b"] "a" ↔ y ∈ ["a", "b"])) ∧
    (toggleLayerVisibility (toggleLayerVisibility ["a", "b"] "a") "a").Perm
      ["a", "b"] ∧
    ("a" ∉ ["a", "b"] →
      toggleLayerVisibility (toggleLayerVisibility ["a", "b"] "a") "a" = ["a", "b"]) :=
  toggleLayerVisibility_involutive ["a", "b"] "a" (by decide)

/-- C10: the provider's calculateDistance is a stub returning 0 for every
pair of points. -/
theorem calculateDistance_stub (point1 point2 : GeoPoint) :
    calculateDistance point1 point2 = 0 := rfl

end FrontendUndp
